import Mathlib

/-!
# letskencrypt: the certificate workers `revokeproc.c` and `certproc.c`

A shallow embedding of the two privilege-separated workers and of the
expiration decoder `X509expires`, followed by theorems about them.

Conventions of the embedding.

* C `int`, `long`, `time_t` values are `Int`.  None of the arithmetic of the
  two files can leave the range of its C type on the inputs considered (a
  field of `struct tm` is at most `207 * 1111`), so no wrap-around is modelled.
* An `unsigned char` is a `Nat`; a buffer is a `List Nat` and its size is the
  list's length, except for `ASN1_TIME`, whose `length` member is kept apart
  from its `data` as in OpenSSL.
* Calls into libc, OpenSSL and the sibling processes are answered by an
  environment record; the sockets' traffic is collected in a trace of events.
* Diagnostics (`dowarn`, `dowarnx`, `dodbg`) are not modelled.
-/

namespace Letskencrypt

/-! ## Expiration decoder (`revokeproc.c`, `X509expires`) -/

/-- Bytes of a C string literal (without the terminating NUL). -/
def bytes (s : String) : List Nat := s.data.map Char.toNat

/-- OpenSSL's `V_ASN1_UTCTIME` (`openssl/asn1.h`). -/
def V_ASN1_UTCTIME : Int := 23

/-- OpenSSL's `V_ASN1_GENERALIZEDTIME` (`openssl/asn1.h`). -/
def V_ASN1_GENERALIZEDTIME : Int := 24

/-- The macro `RENEW_ALLOW` of `revokeproc.c`. -/
def RENEW_ALLOW : Int := 30 * 24 * 60 * 60

/-- The libc `struct tm`. -/
structure tm where
  tm_sec : Int
  tm_min : Int
  tm_hour : Int
  tm_mday : Int
  tm_mon : Int
  tm_year : Int
  tm_wday : Int
  tm_yday : Int
  tm_isdst : Int
deriving DecidableEq, Repr

/-- OpenSSL's `ASN1_TIME` (an `ASN1_STRING`): declared length, type tag, data. -/
structure ASN1_TIME where
  length : Int
  type : Int
  data : List Nat
deriving DecidableEq, Repr

/-- Outcome of a piece of C code that reads from a buffer: `fault` is a read
outside the buffer (undefined behaviour in C), `invalid` is the path
`dowarnx("invalid ASN1_TIME"); return((time_t)-1)`. -/
inductive Res (α : Type) where
  | fault : Res α
  | invalid : Res α
  | ok (a : α) : Res α
deriving DecidableEq, Repr

/-- Sequencing of `Res` computations. -/
def Res.bind {α β : Type} (r : Res α) (f : α → Res β) : Res β :=
  match r with
  | .fault => .fault
  | .invalid => .invalid
  | .ok a => f a

instance : Monad Res where
  pure := Res.ok
  bind := Res.bind

/-- The C expression `str[k] - '0'`, with the read checked against the buffer. -/
def rd (str : List Nat) (k : Nat) : Res Int :=
  match str[k]? with
  | some c => .ok ((c : Int) - 48)
  | none => .fault

/-- Lines 55-97 of `revokeproc.c`: the body of `X509expires` up to, and not
including, the call of `mktime`.  `ok t` is the `struct tm` handed to `mktime`. -/
def X509expires_tm (time : ASN1_TIME) : Res tm := do
  let str := time.data
  let (year, i) ← (
    if time.type = V_ASN1_UTCTIME then
      if time.length ≤ 2 then (Res.invalid : Res (Int × Nat))
      else do
        let y := (← rd str 0) * 10 + (← rd str 1)
        let y := if y < 70 then y + 100 else y
        pure (y, 2)
    else if time.type = V_ASN1_GENERALIZEDTIME then
      if time.length ≤ 4 then Res.invalid
      else do
        let y := (← rd str 0) * 1000 + (← rd str 1) * 100 + (← rd str 2) * 10 + (← rd str 3)
        pure (y - 1900, 4)
    else pure (0, 0))
  if time.length ≤ (i : Int) + 10 then Res.invalid
  else do
    let mon := ((← rd str (i + 0)) * 10 + (← rd str (i + 1))) - 1
    let mday := (← rd str (i + 2)) * 10 + (← rd str (i + 3))
    let hour := (← rd str (i + 4)) * 10 + (← rd str (i + 5))
    let min := (← rd str (i + 6)) * 10 + (← rd str (i + 7))
    let sec := (← rd str (i + 8)) * 10 + (← rd str (i + 9))
    pure { tm_sec := sec, tm_min := min, tm_hour := hour, tm_mday := mday, tm_mon := mon,
           tm_year := year, tm_wday := 0, tm_yday := 0, tm_isdst := 0 }

/-- The function `X509expires`: the decoded fields are passed to `mktime`; the
invalid path returns `(time_t)-1`.  `none` is an out-of-bounds read. -/
def X509expires {X509 : Type} (X509_get_notAfter : X509 → ASN1_TIME) (mktime : tm → Int)
    (x : X509) : Option Int :=
  match X509expires_tm (X509_get_notAfter x) with
  | .fault => none
  | .invalid => some (-1)
  | .ok t => some (mktime t)

/-! ## Shared protocol vocabulary (`extern.h`) -/

/-- The tags of `enum comm` that the two workers use.  `extern.h` is not among
the sources; only the identity of a tag matters to the workers. -/
inductive comm where
  | COMM_CSR_OP
  | COMM_CSR
  | COMM_ISSUER
  | COMM_CHAIN
  | COMM_CHAIN_OP
  | COMM_REVOKE_RESP
  | COMM_REVOKE_OP
deriving DecidableEq, Repr

/-- The enumerators of `enum revokeop`.  They are declared in `extern.h`, which
is not among the sources, so their values are a parameter of the model. -/
structure revokeop where
  REVOKE_STOP : Int
  REVOKE_CHECK : Int
  REVOKE_EXP : Int
  REVOKE_OK : Int
  REVOKE__MAX : Int
deriving DecidableEq, Repr

/-- What a worker does that another process, or the claims, can observe: its
socket traffic, its certificate parses and the release of its descriptors. -/
inductive Event where
  | readop (sock : Int) (c : comm)
  | readbuf (sock : Int) (c : comm)
  | writeop (sock : Int) (c : comm) (v : Int)
  | writestr (sock : Int) (c : comm) (s : String)
  | writebuf (sock : Int) (c : comm) (buf : List Nat) (sz : Nat)
  | d2i_X509 (buf : List Nat) (sz : Nat)
  | PEM_read_X509
  | close (sock : Int)
  | fclose
deriving DecidableEq, Repr

/-- A finished run of a worker: its return value and its events in order. -/
structure Run where
  rc : Int
  trace : List Event
deriving DecidableEq, Repr

/-! ## Renewal-decision worker (`revokeproc.c`, `revokeproc`) -/

/-- The macro `CERT_PEM` of `revokeproc.c`. -/
def CERT_PEM : String := "cert.pem"

/-- Result of `fopen(path, "r")`: a stream, or `NULL` with `errno` being
`ENOENT`, or `NULL` with another `errno`. -/
inductive fopen_result where
  | file
  | ENOENT
  | error
deriving DecidableEq, Repr

/-- Answers of libc, OpenSSL and the orchestrator to the calls of `revokeproc`.
A `Bool` is the success of the call; `sandbox_init` and `pledge` are `true`
where the platform does not compile them in. -/
structure RevokeEnv (X509 : Type) where
  asprintf : Bool
  fopen : String → fopen_result
  sandbox_init : Bool
  dropfs : Bool
  dropprivs : Nat → Nat → Bool
  pledge : Bool
  writeop : Int → comm → Int → Bool
  PEM_read_X509 : Option X509
  X509_get_notAfter : X509 → ASN1_TIME
  mktime : tm → Int
  time : Int
  readop : Int → comm → Int

/-- The sandbox, file-system and privilege steps of `revokeproc` all succeed. -/
def RevokeEnv.jailed {X509 : Type} (env : RevokeEnv X509) (uid gid : Nat) : Prop :=
  env.sandbox_init = true ∧ env.dropfs = true ∧ env.dropprivs uid gid = true ∧
    env.pledge = true

/-- The label `out:` of `revokeproc`: `f` tells whether the stream is open. -/
def revokeproc_out (netsock : Int) (f : Bool) (rc : Int) (tr : List Event) : Run :=
  ⟨rc, tr ++ [Event.close netsock] ++ (if f then [Event.fclose] else [])⟩

/-- The function `revokeproc`.  `none` is an out-of-bounds read in `X509expires`. -/
def revokeproc {X509 : Type} (e : revokeop) (env : RevokeEnv X509)
    (netsock : Int) (certdir : String) (uid gid : Nat) (force : Int) : Option Run :=
  let out := revokeproc_out netsock
  if !env.asprintf then some (out false 0 [])
  else
    let path := certdir ++ "/" ++ CERT_PEM
    if env.fopen path ≠ .file ∧ env.fopen path ≠ .ENOENT then some (out false 0 [])
    else
      let f : Bool := env.fopen path = .file
      if !env.sandbox_init then some (out f 0 [])
      else if !env.dropfs then some (out f 0 [])
      else if !env.dropprivs uid gid then some (out f 0 [])
      else if !env.pledge then some (out f 0 [])
      else if !f then
        let tr := [Event.writeop netsock .COMM_REVOKE_RESP e.REVOKE_EXP]
        if env.writeop netsock .COMM_REVOKE_RESP e.REVOKE_EXP then some (out f 1 tr)
        else some (out f 0 tr)
      else
        match env.PEM_read_X509 with
        | none => some (out f 0 [Event.PEM_read_X509])
        | some x =>
          match X509expires env.X509_get_notAfter env.mktime x with
          | none => none
          | some t =>
            if t = -1 then some (out f 0 [Event.PEM_read_X509])
            else
              let rop := if env.time ≥ t - RENEW_ALLOW then e.REVOKE_EXP else e.REVOKE_OK
              let rop := if e.REVOKE_OK = rop ∧ force ≠ 0 then e.REVOKE_EXP else rop
              let tr := [Event.PEM_read_X509, Event.writeop netsock .COMM_REVOKE_RESP rop]
              if !env.writeop netsock .COMM_REVOKE_RESP rop then some (out f 0 tr)
              else
                let lval := env.readop netsock .COMM_REVOKE_OP
                let tr := tr ++ [Event.readop netsock .COMM_REVOKE_OP]
                let op := if 0 = lval then e.REVOKE_STOP
                  else if e.REVOKE_CHECK = lval then lval
                  else e.REVOKE__MAX
                if e.REVOKE__MAX = op then some (out f 0 tr)
                else if e.REVOKE_STOP = op then some (out f 1 tr)
                else some (out f 1 tr)

/-! ## Issuance-chain worker (`certproc.c`) -/

/-- The macro `MARKER` of `certproc.c`. -/
def MARKER : List Nat := bytes "-----BEGIN CERTIFICATE-----"

/-- The libc `strlen` on a C string given by its bytes before the NUL. -/
def strlen (s : List Nat) : Nat := s.length

/-- The libc `strncmp`: compares at most `n` bytes and stops after a NUL.  The
end of a list is read as the terminating NUL of a C string; `certproc` calls it
on the chain buffer only when the buffer is longer than `n`. -/
def strncmp : List Nat → List Nat → Nat → Int
  | _, _, 0 => 0
  | s1, s2, n + 1 =>
    let c1 := s1.headD 0
    let c2 := s2.headD 0
    if c1 ≠ c2 then (c1 : Int) - (c2 : Int)
    else if c1 = 0 then 0
    else strncmp s1.tail s2.tail n

/-- OpenSSL's `CONF_VALUE`, as far as `certproc` reads it. -/
structure CONF_VALUE where
  name : String
  value : String
deriving DecidableEq, Repr

/-- Answers of libc, OpenSSL and the sibling processes to the calls of
`certproc` and `x509buf`.  `X509_get_ext_by_NID`, `X509_get_ext_d2i` are the
calls for `NID_info_access`; `i2v` is `method->i2v`, `none` being `NULL`;
`BIO_read bio n` is the return value of `BIO_read` on a memory BIO holding
`bio`, which copies that many bytes when it is not negative. -/
structure CertEnv (X509 EXT METHOD ENTRIES : Type) where
  sandbox_init : Bool
  dropfs : Bool
  dropprivs : Nat → Nat → Bool
  pledge : Bool
  readop : Int → comm → Int
  readbuf : Int → comm → Option (List Nat)
  d2i_X509 : List Nat → Nat → Option X509
  X509_get_ext_by_NID : X509 → Int → Int
  X509_get_ext : X509 → Int → Option EXT
  X509V3_EXT_get : EXT → Option METHOD
  X509_get_ext_d2i : X509 → Option ENTRIES
  i2v : METHOD → ENTRIES → Option (List CONF_VALUE)
  strdup : String → Bool
  writestr : Int → comm → String → Bool
  writeop : Int → comm → Int → Bool
  writebuf : Int → comm → List Nat → Nat → Bool
  BIO_new : Bool
  PEM_write_bio_X509 : X509 → Option (List Nat)
  malloc : Nat → Bool
  BIO_read : List Nat → Nat → Int

section
variable {X509 EXT METHOD ENTRIES : Type}

/-- The function `x509buf`: the PEM bytes of `x` (their count is `*sz`), or
`none` for `NULL`. -/
def x509buf (env : CertEnv X509 EXT METHOD ENTRIES) (x : X509) : Option (List Nat) :=
  if !env.BIO_new then none
  else
    match env.PEM_write_bio_X509 x with
    | none => none
    | some bio =>
      let num_write := bio.length
      if !env.malloc num_write then none
      else
        let ssz := env.BIO_read bio num_write
        if ssz < 0 ∨ ssz.toNat ≠ num_write then none
        else some (bio.take ssz.toNat)

/-- Lines 153-159 of `certproc.c`: the values `val` of the Authority Information
Access extension that the loop walks, `none` when the loop is not entered or
`i2v` returns `NULL` (`sk_CONF_VALUE_num` of `NULL` is `-1`). -/
def info_access_values (env : CertEnv X509 EXT METHOD ENTRIES) (x : X509) :
    Option (List CONF_VALUE) :=
  let idx := env.X509_get_ext_by_NID x (-1)
  let method : Option METHOD :=
    if idx ≥ 0 then
      match env.X509_get_ext x idx with
      | some ext => env.X509V3_EXT_get ext
      | none => none
    else none
  let entries := env.X509_get_ext_d2i x
  match method, entries with
  | some m, some en => env.i2v m en
  | _, _ => none

/-- Outcome of the loop of lines 160-170. -/
inductive issuer where
  | null
  | nomem
  | url (s : String)
deriving DecidableEq, Repr

/-- Lines 160-170 of `certproc.c`: the loop over the values, from index `i` on. -/
def find_issuer (strdup : String → Bool) : List CONF_VALUE → issuer
  | [] => .null
  | nval :: rest =>
    if nval.name ≠ "CA Issuers - URI" then find_issuer strdup rest
    else if strdup nval.value then .url nval.value
    else .nomem

/-- Lines 153-171 of `certproc.c`: the value of `url` after the extraction. -/
def certproc_issuer (env : CertEnv X509 EXT METHOD ENTRIES) (x : X509) : issuer :=
  match info_access_values env x with
  | some val => find_issuer env.strdup val
  | none => .null

/-- The sandbox, file-system and privilege steps at the head of `certproc`
all succeed. -/
def CertEnv.jailed (env : CertEnv X509 EXT METHOD ENTRIES) (uid gid : Nat) : Prop :=
  env.sandbox_init = true ∧ env.dropfs = true ∧ env.dropprivs uid gid = true ∧
    env.pledge = true

/-- The label `out:` of `certproc`. -/
def certproc_out (netsock filesock : Int) (rc : Int) (tr : List Event) : Run :=
  ⟨rc, tr ++ [Event.close netsock, Event.close filesock]⟩

/-- Lines 210-223 of `certproc.c`: the chain opcode and the chain buffer, then
the certificate itself, go to the storage socket; `tr` is the trace so far. -/
def certproc_ship (env : CertEnv X509 EXT METHOD ENTRIES) (netsock filesock : Int)
    (x : X509) (chain : List Nat) (tr : List Event) : Run :=
  let out := certproc_out netsock filesock
  let chainsz := chain.length
  let tr := tr ++ [Event.writeop filesock .COMM_CHAIN_OP 1]
  if !env.writeop filesock .COMM_CHAIN_OP 1 then out 0 tr
  else
    let tr := tr ++ [Event.writebuf filesock .COMM_CHAIN chain chainsz]
    if !env.writebuf filesock .COMM_CHAIN chain chainsz then out 0 tr
    else
      match x509buf env x with
      | none => out 0 tr
      | some chain =>
        let chainsz := chain.length
        let tr := tr ++ [Event.writebuf filesock .COMM_CSR chain chainsz]
        if !env.writebuf filesock .COMM_CSR chain chainsz then out 0 tr
        else out 1 tr

/-- Lines 196-223 of `certproc.c`: what `certproc` does with the chain buffer
it has read; `tr` is the trace so far. -/
def certproc_chain (env : CertEnv X509 EXT METHOD ENTRIES) (netsock filesock : Int)
    (x : X509) (chain : List Nat) (tr : List Event) : Run :=
  let out := certproc_out netsock filesock
  let chainsz := chain.length
  if chainsz ≤ strlen MARKER ∨ strncmp chain MARKER (strlen MARKER) ≠ 0 then
    let tr := tr ++ [Event.d2i_X509 chain chainsz]
    match env.d2i_X509 chain chainsz with
    | none => out 0 tr
    | some chainx =>
      match x509buf env chainx with
      | none => out 0 tr
      | some chain => certproc_ship env netsock filesock x chain tr
  else certproc_ship env netsock filesock x chain tr

/-- The function `certproc`. -/
def certproc (env : CertEnv X509 EXT METHOD ENTRIES) (netsock filesock : Int)
    (uid gid : Nat) : Run :=
  let out := certproc_out netsock filesock
  if !env.sandbox_init then out 0 []
  else if !env.dropfs then out 0 []
  else if !env.dropprivs uid gid then out 0 []
  else if !env.pledge then out 0 []
  else
    let lval := env.readop netsock .COMM_CSR_OP
    let tr := [Event.readop netsock .COMM_CSR_OP]
    if 0 = lval then out 1 tr
    else
      let tr := tr ++ [Event.readbuf netsock .COMM_CSR]
      match env.readbuf netsock .COMM_CSR with
      | none => out 0 tr
      | some csr =>
        let csrsz := csr.length
        let tr := tr ++ [Event.d2i_X509 csr csrsz]
        match env.d2i_X509 csr csrsz with
        | none => out 0 tr
        | some x =>
          match certproc_issuer env x with
          | .nomem => out 0 tr
          | .null => out 0 tr
          | .url url =>
            let tr := tr ++ [Event.writestr netsock .COMM_ISSUER url]
            if !env.writestr netsock .COMM_ISSUER url then out 0 tr
            else
              let tr := tr ++ [Event.readbuf netsock .COMM_CHAIN]
              match env.readbuf netsock .COMM_CHAIN with
              | none => out 0 tr
              | some chain => certproc_chain env netsock filesock x chain tr

end

/-! ## Concrete environments -/

/-- An assignment of `enum revokeop`: `REVOKE_STOP = 0` and the other
enumerators counted up from it. -/
def revokeop_example : revokeop :=
  { REVOKE_STOP := 0, REVOKE_CHECK := 1, REVOKE_EXP := 2, REVOKE_OK := 3, REVOKE__MAX := 4 }

/-- An environment of `revokeproc` in which every call succeeds: `fopen`
answers `fo`, the certificate expires at `"200913122640Z"`, which `mktime`
turns into 1600000000, the clock shows `now`, the orchestrator's follow-up
value is `lval`. -/
def revoke_env_example (fo : fopen_result) (now lval : Int) : RevokeEnv ASN1_TIME :=
  { asprintf := true
    fopen := fun _ => fo
    sandbox_init := true
    dropfs := true
    dropprivs := fun _ _ => true
    pledge := true
    writeop := fun _ _ _ => true
    PEM_read_X509 := some ⟨13, V_ASN1_UTCTIME, bytes "200913122640Z"⟩
    X509_get_notAfter := id
    mktime := fun _ => 1600000000
    time := now
    readop := fun _ _ => lval }

/-- An environment of `certproc` in which every call succeeds: the signed
certificate arrives as the two bytes `30 00`, `d2i_X509` accepts the buffers
that start with the DER SEQUENCE tag `0x30`, the Authority Information Access
extension decodes to `vals`, the orchestrator answers with `chain`, and the
PEM encoder writes the marker and a newline. -/
def cert_env_example (vals : Option (List CONF_VALUE)) (chain : List Nat) :
    CertEnv Unit Unit Unit Unit :=
  { sandbox_init := true
    dropfs := true
    dropprivs := fun _ _ => true
    pledge := true
    readop := fun _ _ => 1
    readbuf := fun _ c => if c = comm.COMM_CSR then some [48, 0] else some chain
    d2i_X509 := fun buf _ => if buf.head? = some 48 then some () else none
    X509_get_ext_by_NID := fun _ _ => 0
    X509_get_ext := fun _ _ => some ()
    X509V3_EXT_get := fun _ => some ()
    X509_get_ext_d2i := fun _ => some ()
    i2v := fun _ _ => vals
    strdup := fun _ => true
    writestr := fun _ _ _ => true
    writeop := fun _ _ _ => true
    writebuf := fun _ _ _ _ => true
    BIO_new := true
    PEM_write_bio_X509 := fun _ => some (MARKER ++ [10])
    malloc := fun _ => true
    BIO_read := fun _ n => n }

/-- Decoded entries of an Authority Information Access extension: an OCSP
entry, the issuer entry, and a second issuer entry. -/
def info_access_example : List CONF_VALUE :=
  [⟨"OCSP - URI", "http://ocsp.example.org/"⟩,
   ⟨"CA Issuers - URI", "http://cert.example.org/"⟩,
   ⟨"CA Issuers - URI", "http://other.example.org/"⟩]

/-! ## Auxiliary lemmas -/

@[simp] theorem Res.ok_bind {α β : Type} (a : α) (f : α → Res β) :
    (Res.ok a >>= f) = f a := rfl

@[simp] theorem Res.invalid_bind {α β : Type} (f : α → Res β) :
    ((Res.invalid : Res α) >>= f) = Res.invalid := rfl

@[simp] theorem Res.fault_bind {α β : Type} (f : α → Res β) :
    ((Res.fault : Res α) >>= f) = Res.fault := rfl

@[simp] theorem Res.pure_eq {α : Type} (a : α) : (pure a : Res α) = Res.ok a := rfl

theorem rd_of_lt (str : List Nat) (k : Nat) (h : k < str.length) :
    rd str k = Res.ok ((str.getD k 0 : Int) - 48) := by
  simp [rd, List.getD, List.getElem?_eq_getElem h]

/-- The decoder on a two-digit-year value that passes both length checks. -/
theorem X509expires_tm_utc (x : ASN1_TIME) (hty : x.type = V_ASN1_UTCTIME)
    (hlen : 12 < x.length) (hdata : 12 ≤ x.data.length) :
    X509expires_tm x = Res.ok
      { tm_sec := ((x.data.getD 10 0 : Int) - 48) * 10 + ((x.data.getD 11 0 : Int) - 48),
        tm_min := ((x.data.getD 8 0 : Int) - 48) * 10 + ((x.data.getD 9 0 : Int) - 48),
        tm_hour := ((x.data.getD 6 0 : Int) - 48) * 10 + ((x.data.getD 7 0 : Int) - 48),
        tm_mday := ((x.data.getD 4 0 : Int) - 48) * 10 + ((x.data.getD 5 0 : Int) - 48),
        tm_mon := ((x.data.getD 2 0 : Int) - 48) * 10 + ((x.data.getD 3 0 : Int) - 48) - 1,
        tm_year :=
          if ((x.data.getD 0 0 : Int) - 48) * 10 + ((x.data.getD 1 0 : Int) - 48) < 70
          then ((x.data.getD 0 0 : Int) - 48) * 10 + ((x.data.getD 1 0 : Int) - 48) + 100
          else ((x.data.getD 0 0 : Int) - 48) * 10 + ((x.data.getD 1 0 : Int) - 48),
        tm_wday := 0, tm_yday := 0, tm_isdst := 0 } := by
  have h2 : ¬ x.length ≤ 2 := by omega
  have h12 : ¬ x.length ≤ ((2 : Nat) : Int) + 10 := by push_cast; omega
  simp only [X509expires_tm, hty, if_true, h2, if_false]
  rw [rd_of_lt _ 0 (by omega), rd_of_lt _ 1 (by omega)]
  simp only [Res.ok_bind, Res.pure_eq, h12, if_false]
  rw [rd_of_lt _ (2 + 0) (by omega), rd_of_lt _ (2 + 1) (by omega),
    rd_of_lt _ (2 + 2) (by omega), rd_of_lt _ (2 + 3) (by omega),
    rd_of_lt _ (2 + 4) (by omega), rd_of_lt _ (2 + 5) (by omega),
    rd_of_lt _ (2 + 6) (by omega), rd_of_lt _ (2 + 7) (by omega),
    rd_of_lt _ (2 + 8) (by omega), rd_of_lt _ (2 + 9) (by omega)]
  rfl

/-- The decoder on a four-digit-year value that passes both length checks. -/
theorem X509expires_tm_gen (x : ASN1_TIME) (hty : x.type = V_ASN1_GENERALIZEDTIME)
    (hlen : 14 < x.length) (hdata : 14 ≤ x.data.length) :
    X509expires_tm x = Res.ok
      { tm_sec := ((x.data.getD 12 0 : Int) - 48) * 10 + ((x.data.getD 13 0 : Int) - 48),
        tm_min := ((x.data.getD 10 0 : Int) - 48) * 10 + ((x.data.getD 11 0 : Int) - 48),
        tm_hour := ((x.data.getD 8 0 : Int) - 48) * 10 + ((x.data.getD 9 0 : Int) - 48),
        tm_mday := ((x.data.getD 6 0 : Int) - 48) * 10 + ((x.data.getD 7 0 : Int) - 48),
        tm_mon := ((x.data.getD 4 0 : Int) - 48) * 10 + ((x.data.getD 5 0 : Int) - 48) - 1,
        tm_year :=
          ((x.data.getD 0 0 : Int) - 48) * 1000 + ((x.data.getD 1 0 : Int) - 48) * 100 +
            ((x.data.getD 2 0 : Int) - 48) * 10 + ((x.data.getD 3 0 : Int) - 48) - 1900,
        tm_wday := 0, tm_yday := 0, tm_isdst := 0 } := by
  have hne : ¬ V_ASN1_GENERALIZEDTIME = V_ASN1_UTCTIME := by decide
  have h4 : ¬ x.length ≤ 4 := by omega
  have h14 : ¬ x.length ≤ ((4 : Nat) : Int) + 10 := by push_cast; omega
  simp only [X509expires_tm, hty, hne, if_true, h4, if_false]
  rw [rd_of_lt _ 0 (by omega), rd_of_lt _ 1 (by omega), rd_of_lt _ 2 (by omega),
    rd_of_lt _ 3 (by omega)]
  simp only [Res.ok_bind, Res.pure_eq, h14, if_false]
  rw [rd_of_lt _ (4 + 0) (by omega), rd_of_lt _ (4 + 1) (by omega),
    rd_of_lt _ (4 + 2) (by omega), rd_of_lt _ (4 + 3) (by omega),
    rd_of_lt _ (4 + 4) (by omega), rd_of_lt _ (4 + 5) (by omega),
    rd_of_lt _ (4 + 6) (by omega), rd_of_lt _ (4 + 7) (by omega),
    rd_of_lt _ (4 + 8) (by omega), rd_of_lt _ (4 + 9) (by omega)]
  rfl

/-- The decoder on a value of a kind it does not recognise, longer than ten bytes. -/
theorem X509expires_tm_other (x : ASN1_TIME) (hu : x.type ≠ V_ASN1_UTCTIME)
    (hg : x.type ≠ V_ASN1_GENERALIZEDTIME)
    (hlen : 10 < x.length) (hdata : 10 ≤ x.data.length) :
    X509expires_tm x = Res.ok
      { tm_sec := ((x.data.getD 8 0 : Int) - 48) * 10 + ((x.data.getD 9 0 : Int) - 48),
        tm_min := ((x.data.getD 6 0 : Int) - 48) * 10 + ((x.data.getD 7 0 : Int) - 48),
        tm_hour := ((x.data.getD 4 0 : Int) - 48) * 10 + ((x.data.getD 5 0 : Int) - 48),
        tm_mday := ((x.data.getD 2 0 : Int) - 48) * 10 + ((x.data.getD 3 0 : Int) - 48),
        tm_mon := ((x.data.getD 0 0 : Int) - 48) * 10 + ((x.data.getD 1 0 : Int) - 48) - 1,
        tm_year := 0, tm_wday := 0, tm_yday := 0, tm_isdst := 0 } := by
  have h10 : ¬ x.length ≤ ((0 : Nat) : Int) + 10 := by push_cast; omega
  simp only [X509expires_tm, hu, hg, if_false, Res.ok_bind, Res.pure_eq, h10]
  rw [rd_of_lt _ (0 + 0) (by omega), rd_of_lt _ (0 + 1) (by omega),
    rd_of_lt _ (0 + 2) (by omega), rd_of_lt _ (0 + 3) (by omega),
    rd_of_lt _ (0 + 4) (by omega), rd_of_lt _ (0 + 5) (by omega),
    rd_of_lt _ (0 + 6) (by omega), rd_of_lt _ (0 + 7) (by omega),
    rd_of_lt _ (0 + 8) (by omega), rd_of_lt _ (0 + 9) (by omega)]
  rfl

/-- The decoder rejects a two-digit-year value of declared length at most 12. -/
theorem X509expires_tm_utc_short (x : ASN1_TIME) (hty : x.type = V_ASN1_UTCTIME)
    (hlen : x.length ≤ 12) (hdata : x.length ≤ x.data.length) :
    X509expires_tm x = Res.invalid := by
  by_cases h2 : x.length ≤ 2
  · simp only [X509expires_tm, hty, if_true, h2, Res.invalid_bind]
  · have h12 : x.length ≤ ((2 : Nat) : Int) + 10 := by push_cast; omega
    simp only [X509expires_tm, hty, if_true, h2, if_false]
    rw [rd_of_lt _ 0 (by omega), rd_of_lt _ 1 (by omega)]
    simp only [Res.ok_bind, Res.pure_eq, h12, if_true]

/-- The decoder rejects a four-digit-year value of declared length at most 14. -/
theorem X509expires_tm_gen_short (x : ASN1_TIME) (hty : x.type = V_ASN1_GENERALIZEDTIME)
    (hlen : x.length ≤ 14) (hdata : x.length ≤ x.data.length) :
    X509expires_tm x = Res.invalid := by
  have hne : ¬ V_ASN1_GENERALIZEDTIME = V_ASN1_UTCTIME := by decide
  by_cases h4 : x.length ≤ 4
  · simp only [X509expires_tm, hty, hne, if_true, if_false, h4, Res.invalid_bind]
  · have h14 : x.length ≤ ((4 : Nat) : Int) + 10 := by push_cast; omega
    simp only [X509expires_tm, hty, hne, if_true, h4, if_false]
    rw [rd_of_lt _ 0 (by omega), rd_of_lt _ 1 (by omega), rd_of_lt _ 2 (by omega),
      rd_of_lt _ 3 (by omega)]
    simp only [Res.ok_bind, Res.pure_eq, h14, if_true]

/-- The decoder rejects a value of unrecognised kind of declared length at most 10. -/
theorem X509expires_tm_other_short (x : ASN1_TIME) (hu : x.type ≠ V_ASN1_UTCTIME)
    (hg : x.type ≠ V_ASN1_GENERALIZEDTIME) (hlen : x.length ≤ 10) :
    X509expires_tm x = Res.invalid := by
  have h10 : x.length ≤ ((0 : Nat) : Int) + 10 := by push_cast; omega
  simp only [X509expires_tm, hu, hg, if_false, Res.ok_bind, Res.pure_eq, h10, if_true]

/-- Lines 181-195 of `revokeproc.c`: the decision after the force override. -/
theorem revokeproc_rop (e : revokeop) (now t force : Int) :
    (if e.REVOKE_OK = (if now ≥ t - RENEW_ALLOW then e.REVOKE_EXP else e.REVOKE_OK) ∧
        force ≠ 0 then e.REVOKE_EXP
      else (if now ≥ t - RENEW_ALLOW then e.REVOKE_EXP else e.REVOKE_OK)) =
      (if now ≥ t - 30 * 24 * 60 * 60 ∨ force ≠ 0 then e.REVOKE_EXP else e.REVOKE_OK) := by
  have hR : RENEW_ALLOW = 30 * 24 * 60 * 60 := rfl
  rw [hR]
  by_cases hc : now ≥ t - 30 * 24 * 60 * 60
  · simp only [hc, if_true, true_or, ite_self]
  · by_cases hf : force = 0
    · simp only [hc, hf, if_false, ne_eq, not_true_eq_false, and_false, or_self]
    · simp only [hc, hf, if_false, ne_eq, not_false_eq_true, and_self, or_true, if_true]

/-- The loop stops at the first value named `"CA Issuers - URI"`. -/
theorem find_issuer_first (strdup : String → Bool) (pre post : List CONF_VALUE) (u : String)
    (hpre : ∀ c ∈ pre, c.name ≠ "CA Issuers - URI") :
    find_issuer strdup (pre ++ ⟨"CA Issuers - URI", u⟩ :: post) =
      if strdup u then issuer.url u else issuer.nomem := by
  induction pre with
  | nil => simp [find_issuer]
  | cons c pre ih =>
    have hc : c.name ≠ "CA Issuers - URI" := hpre c (List.mem_cons_self _ _)
    have ih := ih (fun d hd => hpre d (List.mem_cons_of_mem _ hd))
    rw [List.cons_append]
    simp only [find_issuer, hc, ne_eq, not_false_eq_true, if_true]
    exact ih

/-- The loop leaves `url` at `NULL` when no value is named `"CA Issuers - URI"`. -/
theorem find_issuer_null (strdup : String → Bool) (val : List CONF_VALUE)
    (hval : ∀ c ∈ val, c.name ≠ "CA Issuers - URI") :
    find_issuer strdup val = issuer.null := by
  induction val with
  | nil => rfl
  | cons c val ih =>
    have hc : c.name ≠ "CA Issuers - URI" := hval c (List.mem_cons_self _ _)
    have ih := ih (fun d hd => hval d (List.mem_cons_of_mem _ hd))
    simp only [find_issuer, hc, ne_eq, not_false_eq_true, if_true, ih]

/-- On a buffer that starts with a NUL-free string `m`, `strncmp` over the
length of `m` returns 0. -/
theorem strncmp_zero_of_starts (m s : List Nat) (hm : ∀ c ∈ m, c ≠ 0) (hp : m <+: s) :
    strncmp s m m.length = 0 := by
  induction m generalizing s with
  | nil => simp [strncmp]
  | cons a m ih =>
    obtain ⟨t, rfl⟩ := hp
    have ha : a ≠ 0 := hm a (List.mem_cons_self _ _)
    have ih := ih (m ++ t) (fun d hd => hm d (List.mem_cons_of_mem _ hd)) ⟨t, rfl⟩
    simp [strncmp, ha, ih]

/-- Conversely, `strncmp` returns 0 over the length of a NUL-free string `m`
only on a buffer that starts with `m`. -/
theorem starts_of_strncmp_zero (m s : List Nat) (hm : ∀ c ∈ m, c ≠ 0)
    (h : strncmp s m m.length = 0) : m <+: s := by
  induction m generalizing s with
  | nil => exact List.nil_prefix
  | cons a m ih =>
    have ha : a ≠ 0 := hm a (List.mem_cons_self _ _)
    cases s with
    | nil =>
      simp [strncmp, ha, Ne.symm ha] at h
    | cons b s =>
      by_cases hab : b = a
      · subst hab
        simp only [List.length_cons, strncmp, List.headD_cons, ne_eq, not_true_eq_false,
          if_false, ha, List.tail_cons] at h
        have := ih s (fun d hd => hm d (List.mem_cons_of_mem _ hd)) h
        exact (List.cons_prefix_cons).2 ⟨rfl, this⟩
      · simp only [List.length_cons, strncmp, List.headD_cons, ne_eq, hab, not_false_eq_true,
          if_true] at h
        omega

/-- The trace of lines 210-223: after the chain opcode the only parse-free
continuation, whose chain payload is the buffer passed in. -/
theorem certproc_ship_trace {X509 EXT METHOD ENTRIES : Type}
    (env : CertEnv X509 EXT METHOD ENTRIES) (netsock filesock : Int) (x : X509)
    (chain : List Nat) (tr : List Event) :
    ∃ rest : List Event,
      (certproc_ship env netsock filesock x chain tr).trace =
        tr ++ Event.writeop filesock comm.COMM_CHAIN_OP 1 :: rest ∧
      (∀ b k, Event.d2i_X509 b k ∉ rest) ∧
      (∀ b k, Event.writebuf filesock comm.COMM_CHAIN b k ∈ rest →
        b = chain ∧ k = chain.length) ∧
      (env.writeop filesock comm.COMM_CHAIN_OP 1 = true →
        ∃ rest', rest = Event.writebuf filesock comm.COMM_CHAIN chain chain.length :: rest') := by
  unfold certproc_ship
  by_cases h1 : env.writeop filesock comm.COMM_CHAIN_OP 1 = true
  · by_cases h2 : env.writebuf filesock comm.COMM_CHAIN chain chain.length = true
    · cases h3 : x509buf env x with
      | none =>
        refine ⟨[Event.writebuf filesock comm.COMM_CHAIN chain chain.length,
          Event.close netsock, Event.close filesock], ?_, ?_, ?_, ?_⟩
        · simp [h1, h2, h3, certproc_out]
        · simp
        · simp
        · intro _; exact ⟨_, rfl⟩
      | some pem =>
        by_cases h4 : env.writebuf filesock comm.COMM_CSR pem pem.length = true
        · refine ⟨[Event.writebuf filesock comm.COMM_CHAIN chain chain.length,
            Event.writebuf filesock comm.COMM_CSR pem pem.length,
            Event.close netsock, Event.close filesock], ?_, ?_, ?_, ?_⟩
          · simp [h1, h2, h3, h4, certproc_out]
          · simp
          · simp
          · intro _; exact ⟨_, rfl⟩
        · refine ⟨[Event.writebuf filesock comm.COMM_CHAIN chain chain.length,
            Event.writebuf filesock comm.COMM_CSR pem pem.length,
            Event.close netsock, Event.close filesock], ?_, ?_, ?_, ?_⟩
          · simp [h1, h2, h3, h4, certproc_out]
          · simp
          · simp
          · intro _; exact ⟨_, rfl⟩
    · refine ⟨[Event.writebuf filesock comm.COMM_CHAIN chain chain.length,
        Event.close netsock, Event.close filesock], ?_, ?_, ?_, ?_⟩
      · simp [h1, h2, certproc_out]
      · simp
      · simp
      · intro _; exact ⟨_, rfl⟩
  · refine ⟨[Event.close netsock, Event.close filesock], ?_, ?_, ?_, ?_⟩
    · simp [h1, certproc_out]
    · simp
    · simp
    · intro h; exact absurd h h1

/-- Every run of lines 196-223 extends the trace it starts from. -/
theorem certproc_chain_extends {X509 EXT METHOD ENTRIES : Type}
    (env : CertEnv X509 EXT METHOD ENTRIES) (netsock filesock : Int) (x : X509)
    (chain : List Nat) (tr : List Event) :
    tr <+: (certproc_chain env netsock filesock x chain tr).trace := by
  unfold certproc_chain
  simp only []
  split_ifs with hc
  · cases h1 : env.d2i_X509 chain chain.length with
    | none => simp [certproc_out]
    | some chainx =>
      simp only []
      cases h2 : x509buf env chainx with
      | none => simp [certproc_out]
      | some pem =>
        simp only []
        obtain ⟨rest, hr, -⟩ := certproc_ship_trace env netsock filesock x pem
          (tr ++ [Event.d2i_X509 chain chain.length])
        simp only [hr, List.append_assoc]
        exact List.prefix_append _ _
  · obtain ⟨rest, hr, -⟩ := certproc_ship_trace env netsock filesock x chain tr
    rw [hr]
    exact List.prefix_append _ _

/-! ## The expiration decoder: claims C2, C3, C4, C5, C10 -/

/-- C2: a two-digit-year (UTCTIME) value that passes the length check and
starts with twelve ASCII digits `YYMMDDhhmmss` reaches `mktime` with the
calendar year `1900 + YY` when `YY >= 70` and `2000 + YY` when `YY < 70`, hence
a year in `1970..2069`, with the month stored zero-based as `MM - 1`, and with
day `DD`, hour `hh`, minute `mm` and second `ss`. -/
theorem C2_utctime_fields (x : ASN1_TIME)
    (y1 y2 m1 m2 d1 d2 h1 h2 n1 n2 s1 s2 : Fin 10) (rest : List Nat)
    (hty : x.type = V_ASN1_UTCTIME) (hlen : 12 < x.length)
    (hdata : x.data = [48 + y1.val, 48 + y2.val, 48 + m1.val, 48 + m2.val, 48 + d1.val,
      48 + d2.val, 48 + h1.val, 48 + h2.val, 48 + n1.val, 48 + n2.val, 48 + s1.val,
      48 + s2.val] ++ rest) :
    ∃ t : tm, X509expires_tm x = Res.ok t ∧
      (∀ mktime : tm → Int, X509expires id mktime x = some (mktime t)) ∧
      1900 + t.tm_year =
        (if (70 : Int) ≤ 10 * y1.val + y2.val then 1900 + (10 * y1.val + y2.val)
         else 2000 + (10 * y1.val + y2.val)) ∧
      1970 ≤ 1900 + t.tm_year ∧ 1900 + t.tm_year ≤ 2069 ∧
      t.tm_mon = 10 * m1.val + m2.val - 1 ∧
      t.tm_mday = 10 * d1.val + d2.val ∧
      t.tm_hour = 10 * h1.val + h2.val ∧
      t.tm_min = 10 * n1.val + n2.val ∧
      t.tm_sec = 10 * s1.val + s2.val := by
  have hd : 12 ≤ x.data.length := by rw [hdata]; simp
  have hx := X509expires_tm_utc x hty hlen hd
  refine ⟨_, hx, ?_, ?_⟩
  · intro mktime
    simp only [X509expires, id, hx]
  · have b1 := y1.isLt
    have b2 := y2.isLt
    simp only [hdata, List.cons_append, List.getD_cons_zero, List.getD_cons_succ]
    push_cast
    refine ⟨?_, ?_, ?_, ?_, ?_, ?_, ?_, ?_⟩
    · split_ifs <;> omega
    · split_ifs <;> omega
    · split_ifs <;> omega
    all_goals ring

/-- Witness of C2 on the strings `"200101000000Z"` and `"700101000000Z"`. -/
theorem C2_utctime_fields_witness :
    (∃ t : tm, X509expires_tm ⟨13, V_ASN1_UTCTIME, bytes "200101000000Z"⟩ = Res.ok t ∧
      1900 + t.tm_year = 2020 ∧ t.tm_mon = 0 ∧ t.tm_mday = 1 ∧ t.tm_hour = 0 ∧
      t.tm_min = 0 ∧ t.tm_sec = 0) ∧
    (∃ t : tm, X509expires_tm ⟨13, V_ASN1_UTCTIME, bytes "700101000000Z"⟩ = Res.ok t ∧
      1900 + t.tm_year = 1970) := by
  constructor
  · obtain ⟨t, h, -, hy, -, -, hm, hd, hh, hn, hs⟩ :=
      C2_utctime_fields ⟨13, V_ASN1_UTCTIME, bytes "200101000000Z"⟩ 2 0 0 1 0 1 0 0 0 0 0 0 [90]
        rfl (by decide) (by decide)
    exact ⟨t, h, by simpa using hy, by simpa using hm, by simpa using hd, by simpa using hh,
      by simpa using hn, by simpa using hs⟩
  · obtain ⟨t, h, -, hy, -⟩ :=
      C2_utctime_fields ⟨13, V_ASN1_UTCTIME, bytes "700101000000Z"⟩ 7 0 0 1 0 1 0 0 0 0 0 0 [90]
        rfl (by decide) (by decide)
    exact ⟨t, h, by simpa using hy⟩

/-- C3: a twelve-digit string `YYMMDDhhmmss` followed by a trailing byte decodes
as the two-digit-year kind to exactly the `struct tm` that the four-digit-year
kind yields on the same string prefixed with `"20"` when `YY < 70` and with
`"19"` when `YY >= 70`; and every four-digit-year value that passes the length
check and starts with fourteen digits has the year field `YYYY - 1900` and the
other fields read from offset 4. -/
theorem C3_generalizedtime_agrees
    (y1 y2 m1 m2 d1 d2 h1 h2 n1 n2 s1 s2 : Fin 10) (z : Nat) :
    (∃ t : tm,
      X509expires_tm ⟨13, V_ASN1_UTCTIME,
        [48 + y1.val, 48 + y2.val, 48 + m1.val, 48 + m2.val, 48 + d1.val, 48 + d2.val,
         48 + h1.val, 48 + h2.val, 48 + n1.val, 48 + n2.val, 48 + s1.val, 48 + s2.val, z]⟩
        = Res.ok t ∧
      X509expires_tm ⟨15, V_ASN1_GENERALIZEDTIME,
        (if 10 * y1.val + y2.val < 70 then bytes "20" else bytes "19") ++
        [48 + y1.val, 48 + y2.val, 48 + m1.val, 48 + m2.val, 48 + d1.val, 48 + d2.val,
         48 + h1.val, 48 + h2.val, 48 + n1.val, 48 + n2.val, 48 + s1.val, 48 + s2.val, z]⟩
        = Res.ok t) ∧
    (∀ (x : ASN1_TIME) (c1 c2 : Fin 10) (rest : List Nat),
      x.type = V_ASN1_GENERALIZEDTIME → 14 < x.length →
      x.data = [48 + c1.val, 48 + c2.val, 48 + y1.val, 48 + y2.val, 48 + m1.val, 48 + m2.val,
        48 + d1.val, 48 + d2.val, 48 + h1.val, 48 + h2.val, 48 + n1.val, 48 + n2.val,
        48 + s1.val, 48 + s2.val] ++ rest →
      X509expires_tm x = Res.ok
        { tm_sec := 10 * s1.val + s2.val, tm_min := 10 * n1.val + n2.val,
          tm_hour := 10 * h1.val + h2.val, tm_mday := 10 * d1.val + d2.val,
          tm_mon := 10 * m1.val + m2.val - 1,
          tm_year := 1000 * c1.val + 100 * c2.val + 10 * y1.val + y2.val - 1900,
          tm_wday := 0, tm_yday := 0, tm_isdst := 0 }) := by
  constructor
  · refine ⟨_, X509expires_tm_utc _ rfl (by norm_num) (by simp), ?_⟩
    rw [X509expires_tm_gen _ rfl (by norm_num) (by split_ifs <;> simp [bytes])]
    have b1 := y1.isLt
    have b2 := y2.isLt
    congr 1
    by_cases hy : 10 * y1.val + y2.val < 70
    · have hy2 : (((48 + y1.val : Nat) : Int) - 48) * 10 + (((48 + y2.val : Nat) : Int) - 48) < 70 := by
        push_cast; omega
      simp only [hy, if_true, bytes, List.map, List.cons_append, List.nil_append,
        List.getD_cons_zero, List.getD_cons_succ, hy2]
      simp only [tm.mk.injEq, and_true, true_and]
      norm_num
      push_cast
      ring
    · have hy2 : ¬ (((48 + y1.val : Nat) : Int) - 48) * 10 + (((48 + y2.val : Nat) : Int) - 48) < 70 := by
        push_cast; omega
      simp only [hy, if_false, bytes, List.map, List.cons_append, List.nil_append,
        List.getD_cons_zero, List.getD_cons_succ, hy2]
      simp only [tm.mk.injEq, and_true, true_and]
      norm_num
      push_cast
      ring
  · intro x c1 c2 rest hty hlen hdata
    have hd : 14 ≤ x.data.length := by rw [hdata]; simp
    rw [X509expires_tm_gen x hty hlen hd]
    simp only [hdata, List.cons_append, List.getD_cons_zero, List.getD_cons_succ]
    congr 1
    simp only [tm.mk.injEq, and_true]
    push_cast
    refine ⟨?_, ?_, ?_, ?_, ?_, ?_⟩ <;> ring

/-- Witness of C3 on `"200101000000Z"` (two-digit) and `"20200101000000Z"`
(four-digit): both decode to 2020-01-01 00:00:00. -/
theorem C3_generalizedtime_agrees_witness :
    X509expires_tm ⟨13, V_ASN1_UTCTIME, bytes "200101000000Z"⟩ =
      X509expires_tm ⟨15, V_ASN1_GENERALIZEDTIME, bytes "20200101000000Z"⟩ ∧
    X509expires_tm ⟨15, V_ASN1_GENERALIZEDTIME, bytes "20200101000000Z"⟩ =
      Res.ok ⟨0, 0, 0, 1, 0, 120, 0, 0, 0⟩ := by
  obtain ⟨⟨t, hu, hg⟩, hgen⟩ := C3_generalizedtime_agrees 2 0 0 1 0 1 0 0 0 0 0 0 90
  have h := hgen ⟨15, V_ASN1_GENERALIZEDTIME, bytes "20200101000000Z"⟩ 2 0 [90] rfl
    (by decide) (by decide)
  exact ⟨hu.trans hg.symm, h⟩

/-- C5 (counterexample): a two-digit-year value of exactly 2 + 10 = 12 digit
bytes and a four-digit-year value of exactly 4 + 10 = 14 digit bytes are both
rejected by the length check. -/
theorem C5_minimum_length_rejected :
    (bytes "200101000000").length = 12 ∧
    X509expires_tm ⟨12, V_ASN1_UTCTIME, bytes "200101000000"⟩ = Res.invalid ∧
    (bytes "20200101000000").length = 14 ∧
    X509expires_tm ⟨14, V_ASN1_GENERALIZEDTIME, bytes "20200101000000"⟩ = Res.invalid := by
  decide

/-- C5 (amended): for a time value of a recognised kind whose declared length
is the number of its bytes, the decoder fails on length grounds exactly when
the length is at most 12 for the two-digit-year kind and at most 14 for the
four-digit-year kind, that is when the string is shorter than 13, respectively
15, bytes; every longer string gets past the length checks to `mktime`. -/
theorem C5_length_threshold (x : ASN1_TIME)
    (hk : x.type = V_ASN1_UTCTIME ∨ x.type = V_ASN1_GENERALIZEDTIME)
    (hcons : x.length = x.data.length) :
    (X509expires_tm x = Res.invalid ↔
      x.length ≤ (if x.type = V_ASN1_UTCTIME then 12 else 14)) ∧
    ((if x.type = V_ASN1_UTCTIME then 12 else 14) < x.length →
      ∃ t : tm, X509expires_tm x = Res.ok t) := by
  have hne : ¬ V_ASN1_GENERALIZEDTIME = V_ASN1_UTCTIME := by decide
  rcases hk with hk | hk
  · simp only [hk, if_true]
    by_cases hl : x.length ≤ 12
    · have := X509expires_tm_utc_short x hk hl (by omega)
      exact ⟨⟨fun _ => hl, fun _ => this⟩, fun h => absurd hl (by omega)⟩
    · have := X509expires_tm_utc x hk (by omega) (by omega)
      refine ⟨⟨fun h => ?_, fun h => absurd h hl⟩, fun _ => ⟨_, this⟩⟩
      rw [this] at h
      exact Res.noConfusion h
  · simp only [hk, hne, if_false]
    by_cases hl : x.length ≤ 14
    · have := X509expires_tm_gen_short x hk hl (by omega)
      exact ⟨⟨fun _ => hl, fun _ => this⟩, fun h => absurd hl (by omega)⟩
    · have := X509expires_tm_gen x hk (by omega) (by omega)
      refine ⟨⟨fun h => ?_, fun h => absurd h hl⟩, fun _ => ⟨_, this⟩⟩
      rw [this] at h
      exact Res.noConfusion h

/-- Witness of C5 (amended): twelve bytes are rejected, thirteen are decoded. -/
theorem C5_length_threshold_witness :
    X509expires_tm ⟨12, V_ASN1_UTCTIME, bytes "200101000000"⟩ = Res.invalid ∧
    ∃ t : tm, X509expires_tm ⟨13, V_ASN1_UTCTIME, bytes "200101000000Z"⟩ = Res.ok t :=
  ⟨(C5_length_threshold ⟨12, V_ASN1_UTCTIME, bytes "200101000000"⟩ (Or.inl rfl)
      (by decide)).1.2 (by decide),
   (C5_length_threshold ⟨13, V_ASN1_UTCTIME, bytes "200101000000Z"⟩ (Or.inl rfl)
      (by decide)).2 (by decide)⟩

/-- C10: when the declared length of a time value is the number of bytes of its
data, then for every declared kind and every byte content no read of the
decoder falls outside the data: the decoder never takes the out-of-range
branch, so `X509expires` always returns a value. -/
theorem C10_no_out_of_bounds_read (x : ASN1_TIME) (hcons : x.length = x.data.length) :
    X509expires_tm x ≠ Res.fault ∧
    ∀ mktime : tm → Int, ∃ r : Int, X509expires id mktime x = some r := by
  have key : X509expires_tm x = Res.invalid ∨ ∃ t : tm, X509expires_tm x = Res.ok t := by
    by_cases hu : x.type = V_ASN1_UTCTIME
    · by_cases hl : x.length ≤ 12
      · exact Or.inl (X509expires_tm_utc_short x hu hl (by omega))
      · exact Or.inr ⟨_, X509expires_tm_utc x hu (by omega) (by omega)⟩
    · by_cases hg : x.type = V_ASN1_GENERALIZEDTIME
      · by_cases hl : x.length ≤ 14
        · exact Or.inl (X509expires_tm_gen_short x hg hl (by omega))
        · exact Or.inr ⟨_, X509expires_tm_gen x hg (by omega) (by omega)⟩
      · by_cases hl : x.length ≤ 10
        · exact Or.inl (X509expires_tm_other_short x hu hg hl)
        · exact Or.inr ⟨_, X509expires_tm_other x hu hg (by omega) (by omega)⟩
  rcases key with h | ⟨t, h⟩
  · refine ⟨by rw [h]; exact fun h' => Res.noConfusion h', fun mktime => ⟨-1, ?_⟩⟩
    simp only [X509expires, id, h]
  · refine ⟨by rw [h]; exact fun h' => Res.noConfusion h', fun mktime => ⟨mktime t, ?_⟩⟩
    simp only [X509expires, id, h]

/-- Witness of C10 on values that get past the length checks, so that every
read of the decoder takes place: a 13-byte two-digit-year value, a 15-byte
four-digit-year value, and an 11-byte value of an unrecognised kind whose
bytes are not digits.  Each is decoded to fields, none faults. -/
theorem C10_no_out_of_bounds_read_witness :
    (X509expires_tm ⟨13, V_ASN1_UTCTIME, bytes "200101000000Z"⟩ ≠ Res.fault ∧
      X509expires_tm ⟨13, V_ASN1_UTCTIME, bytes "200101000000Z"⟩ =
        Res.ok ⟨0, 0, 0, 1, 0, 120, 0, 0, 0⟩) ∧
    (X509expires_tm ⟨15, V_ASN1_GENERALIZEDTIME, bytes "20200101000000Z"⟩ ≠ Res.fault ∧
      X509expires_tm ⟨15, V_ASN1_GENERALIZEDTIME, bytes "20200101000000Z"⟩ =
        Res.ok ⟨0, 0, 0, 1, 0, 120, 0, 0, 0⟩) ∧
    (X509expires_tm ⟨11, 0, [255, 0, 65, 48, 49, 50, 51, 52, 53, 54, 90]⟩ ≠ Res.fault ∧
      ∃ r : Int,
        X509expires id (fun t => t.tm_sec) ⟨11, 0, [255, 0, 65, 48, 49, 50, 51, 52, 53, 54, 90]⟩
          = some r) :=
  ⟨⟨(C10_no_out_of_bounds_read ⟨13, V_ASN1_UTCTIME, bytes "200101000000Z"⟩ (by decide)).1,
      by decide⟩,
   ⟨(C10_no_out_of_bounds_read ⟨15, V_ASN1_GENERALIZEDTIME, bytes "20200101000000Z"⟩
      (by decide)).1, by decide⟩,
   ⟨(C10_no_out_of_bounds_read ⟨11, 0, [255, 0, 65, 48, 49, 50, 51, 52, 53, 54, 90]⟩
      (by decide)).1,
    (C10_no_out_of_bounds_read ⟨11, 0, [255, 0, 65, 48, 49, 50, 51, 52, 53, 54, 90]⟩
      (by decide)).2 (fun t => t.tm_sec)⟩⟩

/-! ## The renewal-decision worker: claims C1, C7, C9 -/

/-- C1: when the certificate file is open, the jail is entered, the
certificate parses and its expiration decodes to a time `t` other than
`(time_t)-1`, then for every current time and every force flag the first
value the worker writes to the orchestrator is the decision `REVOKE_EXP`
(renewable) if `now >= t - 30*24*60*60` or force is set, and `REVOKE_OK`
(valid) otherwise. -/
theorem C1_decision_rule {X509 : Type} (e : revokeop) (env : RevokeEnv X509)
    (netsock : Int) (certdir : String) (uid gid : Nat) (force : Int) (x : X509) (t : Int)
    (hpath : env.asprintf = true)
    (hfile : env.fopen (certdir ++ "/" ++ CERT_PEM) = fopen_result.file)
    (hjail : env.jailed uid gid)
    (hx : env.PEM_read_X509 = some x)
    (ht : X509expires env.X509_get_notAfter env.mktime x = some t) (hne : t ≠ -1) :
    ∃ run : Run,
      revokeproc e env netsock certdir uid gid force = some run ∧
      [Event.PEM_read_X509,
        Event.writeop netsock comm.COMM_REVOKE_RESP
          (if env.time ≥ t - 30 * 24 * 60 * 60 ∨ force ≠ 0 then e.REVOKE_EXP
           else e.REVOKE_OK)] <+: run.trace := by
  obtain ⟨h1, h2, h3, h4⟩ := hjail
  have hrop := revokeproc_rop e env.time t force
  simp only [revokeproc, hpath, hfile, h1, h2, h3, h4, hx, ht, hne, hrop, revokeproc_out]
  simp only [Bool.not_true, ne_eq, not_true_eq_false, false_and, if_false, decide_True,
    Bool.false_eq_true, reduceCtorEq]
  split_ifs <;> exact ⟨_, rfl, by simp⟩

/-- Witness of C1: with the expiration 60 days ahead and no force the worker
writes `REVOKE_OK`; 10 days ahead it writes `REVOKE_EXP`; 60 days ahead with
force it writes `REVOKE_EXP`. -/
theorem C1_decision_rule_witness :
    (∃ run : Run,
      revokeproc revokeop_example
        (revoke_env_example fopen_result.file (1600000000 - 60 * 86400) 0) 3 "/etc/ssl" 0 0 0
        = some run ∧
      [Event.PEM_read_X509, Event.writeop 3 comm.COMM_REVOKE_RESP 3] <+: run.trace) ∧
    (∃ run : Run,
      revokeproc revokeop_example
        (revoke_env_example fopen_result.file (1600000000 - 10 * 86400) 0) 3 "/etc/ssl" 0 0 0
        = some run ∧
      [Event.PEM_read_X509, Event.writeop 3 comm.COMM_REVOKE_RESP 2] <+: run.trace) ∧
    (∃ run : Run,
      revokeproc revokeop_example
        (revoke_env_example fopen_result.file (1600000000 - 60 * 86400) 0) 3 "/etc/ssl" 0 0 1
        = some run ∧
      [Event.PEM_read_X509, Event.writeop 3 comm.COMM_REVOKE_RESP 2] <+: run.trace) :=
  ⟨C1_decision_rule revokeop_example
      (revoke_env_example fopen_result.file (1600000000 - 60 * 86400) 0) 3 "/etc/ssl" 0 0 0
      ⟨13, V_ASN1_UTCTIME, bytes "200913122640Z"⟩ 1600000000 rfl rfl ⟨rfl, rfl, rfl, rfl⟩ rfl
      (by decide) (by decide),
   C1_decision_rule revokeop_example
      (revoke_env_example fopen_result.file (1600000000 - 10 * 86400) 0) 3 "/etc/ssl" 0 0 0
      ⟨13, V_ASN1_UTCTIME, bytes "200913122640Z"⟩ 1600000000 rfl rfl ⟨rfl, rfl, rfl, rfl⟩ rfl
      (by decide) (by decide),
   C1_decision_rule revokeop_example
      (revoke_env_example fopen_result.file (1600000000 - 60 * 86400) 0) 3 "/etc/ssl" 0 0 1
      ⟨13, V_ASN1_UTCTIME, bytes "200913122640Z"⟩ 1600000000 rfl rfl ⟨rfl, rfl, rfl, rfl⟩ rfl
      (by decide) (by decide)⟩

/-- C7: once the decision has been written successfully, the worker reads one
follow-up value `v`; it returns 1 if `v = 0` or `v = REVOKE_CHECK` and 0 for
every other `v`, and after that read it only closes its socket and its file:
no further read or write happens.  (`REVOKE__MAX` is an enumerator of its own,
different from `REVOKE_STOP` and `REVOKE_CHECK`.) -/
theorem C7_follow_up {X509 : Type} (e : revokeop) (env : RevokeEnv X509)
    (netsock : Int) (certdir : String) (uid gid : Nat) (force : Int) (x : X509) (t : Int)
    (hMS : e.REVOKE__MAX ≠ e.REVOKE_STOP) (hMC : e.REVOKE__MAX ≠ e.REVOKE_CHECK)
    (hpath : env.asprintf = true)
    (hfile : env.fopen (certdir ++ "/" ++ CERT_PEM) = fopen_result.file)
    (hjail : env.jailed uid gid)
    (hx : env.PEM_read_X509 = some x)
    (ht : X509expires env.X509_get_notAfter env.mktime x = some t) (hne : t ≠ -1)
    (hw : env.writeop netsock comm.COMM_REVOKE_RESP
      (if env.time ≥ t - 30 * 24 * 60 * 60 ∨ force ≠ 0 then e.REVOKE_EXP
       else e.REVOKE_OK) = true) :
    revokeproc e env netsock certdir uid gid force = some
      { rc := if env.readop netsock comm.COMM_REVOKE_OP = 0 ∨
              env.readop netsock comm.COMM_REVOKE_OP = e.REVOKE_CHECK then 1 else 0
        trace := [Event.PEM_read_X509,
          Event.writeop netsock comm.COMM_REVOKE_RESP
            (if env.time ≥ t - 30 * 24 * 60 * 60 ∨ force ≠ 0 then e.REVOKE_EXP
             else e.REVOKE_OK),
          Event.readop netsock comm.COMM_REVOKE_OP,
          Event.close netsock, Event.fclose] } := by
  obtain ⟨h1, h2, h3, h4⟩ := hjail
  have hrop := revokeproc_rop e env.time t force
  simp only [revokeproc, hpath, hfile, h1, h2, h3, h4, hx, ht, hne, hrop, hw, revokeproc_out]
  simp only [Bool.not_true, ne_eq, not_true_eq_false, false_and, if_false, decide_True,
    Bool.false_eq_true, reduceCtorEq, if_true, List.cons_append, List.nil_append]
  by_cases h0 : env.readop netsock comm.COMM_REVOKE_OP = 0
  · have h0' : (0 : Int) = env.readop netsock comm.COMM_REVOKE_OP := h0.symm
    simp only [h0', if_true, hMS, if_false, true_or]
  · have h0' : ¬ (0 : Int) = env.readop netsock comm.COMM_REVOKE_OP := fun h => h0 h.symm
    by_cases hc : env.readop netsock comm.COMM_REVOKE_OP = e.REVOKE_CHECK
    · have hc' : e.REVOKE_CHECK = env.readop netsock comm.COMM_REVOKE_OP := hc.symm
      have hM : ¬ e.REVOKE__MAX = env.readop netsock comm.COMM_REVOKE_OP := by
        rw [hc]; exact hMC
      simp only [h0', hc', if_true, if_false, hM, h0, or_true, false_or, ite_self]
    · have hc' : ¬ e.REVOKE_CHECK = env.readop netsock comm.COMM_REVOKE_OP :=
        fun h => hc h.symm
      simp only [h0', hc', if_false, if_true, h0, hc, or_self]

/-- Witness of C7: the follow-up values 0 and `REVOKE_CHECK` end the worker
with 1, the follow-up value 7 ends it with 0. -/
theorem C7_follow_up_witness :
    (revokeproc revokeop_example
        (revoke_env_example fopen_result.file 1600000000 0) 3 "/etc/ssl" 0 0 0).map Run.rc
      = some 1 ∧
    (revokeproc revokeop_example
        (revoke_env_example fopen_result.file 1600000000 1) 3 "/etc/ssl" 0 0 0).map Run.rc
      = some 1 ∧
    (revokeproc revokeop_example
        (revoke_env_example fopen_result.file 1600000000 7) 3 "/etc/ssl" 0 0 0).map Run.rc
      = some 0 := by
  refine ⟨?_, ?_, ?_⟩
  · rw [C7_follow_up revokeop_example (revoke_env_example fopen_result.file 1600000000 0) 3
      "/etc/ssl" 0 0 0 ⟨13, V_ASN1_UTCTIME, bytes "200913122640Z"⟩ 1600000000
      (by decide) (by decide) rfl rfl ⟨rfl, rfl, rfl, rfl⟩ rfl (by decide) (by decide) rfl]
    rfl
  · rw [C7_follow_up revokeop_example (revoke_env_example fopen_result.file 1600000000 1) 3
      "/etc/ssl" 0 0 0 ⟨13, V_ASN1_UTCTIME, bytes "200913122640Z"⟩ 1600000000
      (by decide) (by decide) rfl rfl ⟨rfl, rfl, rfl, rfl⟩ rfl (by decide) (by decide) rfl]
    rfl
  · rw [C7_follow_up revokeop_example (revoke_env_example fopen_result.file 1600000000 7) 3
      "/etc/ssl" 0 0 0 ⟨13, V_ASN1_UTCTIME, bytes "200913122640Z"⟩ 1600000000
      (by decide) (by decide) rfl rfl ⟨rfl, rfl, rfl, rfl⟩ rfl (by decide) (by decide) rfl]
    rfl

/-- C9: when the path is built and `fopen` fails with `ENOENT`, and the jail
is entered, the worker's only socket operation is the write of the decision
`REVOKE_EXP` (renewable): it parses no certificate, reads no follow-up, and
returns 1 exactly when that write succeeded.  When `fopen` fails with another
error the worker returns 0 and only closes its socket. -/
theorem C9_absent_certificate {X509 : Type} (e : revokeop) (env : RevokeEnv X509)
    (netsock : Int) (certdir : String) (uid gid : Nat) (force : Int)
    (hpath : env.asprintf = true) :
    (env.fopen (certdir ++ "/" ++ CERT_PEM) = fopen_result.ENOENT → env.jailed uid gid →
      revokeproc e env netsock certdir uid gid force = some
        { rc := if env.writeop netsock comm.COMM_REVOKE_RESP e.REVOKE_EXP = true then 1 else 0
          trace := [Event.writeop netsock comm.COMM_REVOKE_RESP e.REVOKE_EXP,
            Event.close netsock] }) ∧
    (env.fopen (certdir ++ "/" ++ CERT_PEM) = fopen_result.error →
      revokeproc e env netsock certdir uid gid force = some
        { rc := 0, trace := [Event.close netsock] }) := by
  constructor
  · rintro hf ⟨h1, h2, h3, h4⟩
    simp only [revokeproc, hpath, hf, h1, h2, h3, h4, revokeproc_out]
    simp only [Bool.not_true, ne_eq, not_true_eq_false, and_false, false_and, if_false,
      decide_False, Bool.false_eq_true, reduceCtorEq, Bool.not_false, if_true,
      List.cons_append, List.nil_append, List.append_nil]
    split_ifs <;> rfl
  · intro hf
    simp only [revokeproc, hpath, hf, revokeproc_out]
    simp only [Bool.not_true, ne_eq, not_true_eq_false, not_false_eq_true, and_self,
      Bool.false_eq_true, reduceCtorEq, if_false, if_true, List.nil_append, List.append_nil]

/-- Witness of C9 on an environment whose `fopen` answers `ENOENT`, and on one
whose `fopen` fails otherwise. -/
theorem C9_absent_certificate_witness :
    revokeproc revokeop_example (revoke_env_example fopen_result.ENOENT 0 0) 3 "/etc/ssl" 0 0 0
      = some ⟨1, [Event.writeop 3 comm.COMM_REVOKE_RESP 2, Event.close 3]⟩ ∧
    revokeproc revokeop_example (revoke_env_example fopen_result.error 0 0) 3 "/etc/ssl" 0 0 0
      = some ⟨0, [Event.close 3]⟩ :=
  ⟨(C9_absent_certificate revokeop_example (revoke_env_example fopen_result.ENOENT 0 0) 3
      "/etc/ssl" 0 0 0 rfl).1 rfl ⟨rfl, rfl, rfl, rfl⟩,
   (C9_absent_certificate revokeop_example (revoke_env_example fopen_result.error 0 0) 3
      "/etc/ssl" 0 0 0 rfl).2 rfl⟩

/-! ## The issuance-chain worker: claims C6, C8 -/

/-- C6 (counterexample): the chain buffer that consists of exactly the 27
marker bytes begins with the marker, yet it is handed to the DER parser
`d2i_X509`; the parser rejects it, the worker returns 0 and nothing is written
to the storage socket 4. -/
theorem C6_marker_only_chain_parsed :
    MARKER <+: MARKER ∧ MARKER.length = 27 ∧
    certproc (cert_env_example (some info_access_example) MARKER) 3 4 0 0 =
      ⟨0, [Event.readop 3 comm.COMM_CSR_OP, Event.readbuf 3 comm.COMM_CSR,
        Event.d2i_X509 [48, 0] 2,
        Event.writestr 3 comm.COMM_ISSUER "http://cert.example.org/",
        Event.readbuf 3 comm.COMM_CHAIN, Event.d2i_X509 MARKER 27,
        Event.close 3, Event.close 4]⟩ := by
  refine ⟨List.prefix_refl _, by decide, ?_⟩
  decide

/-- C6 (amended): a chain buffer that begins with the PEM marker and is
strictly longer than the 27 marker bytes is not parsed as DER: after the chain
is read the next event is the chain opcode on the storage socket, the only
certificate parse of the run is that of the signed certificate, every chain
payload written to the storage socket is the received buffer with its length,
and it is written as soon as the chain opcode has been accepted.  A chain
buffer of at most 27 bytes, the bare marker included, goes to the DER parser. -/
theorem C6_pem_chain_forwarded {X509 EXT METHOD ENTRIES : Type}
    (env : CertEnv X509 EXT METHOD ENTRIES) (netsock filesock : Int) (uid gid : Nat)
    (csr : List Nat) (x : X509) (url : String) (chain : List Nat)
    (hjail : env.jailed uid gid)
    (hop : env.readop netsock comm.COMM_CSR_OP ≠ 0)
    (hcsr : env.readbuf netsock comm.COMM_CSR = some csr)
    (hx : env.d2i_X509 csr csr.length = some x)
    (hurl : certproc_issuer env x = issuer.url url)
    (hstr : env.writestr netsock comm.COMM_ISSUER url = true)
    (hchain : env.readbuf netsock comm.COMM_CHAIN = some chain) :
    (MARKER <+: chain → 27 < chain.length →
      ∃ rest : List Event,
        (certproc env netsock filesock uid gid).trace =
          [Event.readop netsock comm.COMM_CSR_OP, Event.readbuf netsock comm.COMM_CSR,
            Event.d2i_X509 csr csr.length, Event.writestr netsock comm.COMM_ISSUER url,
            Event.readbuf netsock comm.COMM_CHAIN,
            Event.writeop filesock comm.COMM_CHAIN_OP 1] ++ rest ∧
        (∀ b k, Event.d2i_X509 b k ∉ rest) ∧
        (∀ b k, Event.writebuf filesock comm.COMM_CHAIN b k ∈
            (certproc env netsock filesock uid gid).trace → b = chain ∧ k = chain.length) ∧
        (env.writeop filesock comm.COMM_CHAIN_OP 1 = true →
          ∃ rest',
            rest = Event.writebuf filesock comm.COMM_CHAIN chain chain.length :: rest')) ∧
    (chain.length ≤ 27 →
      [Event.readop netsock comm.COMM_CSR_OP, Event.readbuf netsock comm.COMM_CSR,
        Event.d2i_X509 csr csr.length, Event.writestr netsock comm.COMM_ISSUER url,
        Event.readbuf netsock comm.COMM_CHAIN, Event.d2i_X509 chain chain.length]
        <+: (certproc env netsock filesock uid gid).trace) := by
  obtain ⟨h1, h2, h3, h4⟩ := hjail
  have hop' : ¬ (0 : Int) = env.readop netsock comm.COMM_CSR_OP := fun h => hop h.symm
  have hM : strlen MARKER = 27 := by decide
  constructor
  · intro hmark hlen
    have hnz : ∀ c ∈ MARKER, c ≠ 0 := by decide
    have hcmp : strncmp chain MARKER (strlen MARKER) = 0 :=
      strncmp_zero_of_starts MARKER chain hnz hmark
    have hcond :
        ¬ (chain.length ≤ strlen MARKER ∨ strncmp chain MARKER (strlen MARKER) ≠ 0) := by
      rw [hcmp, hM]
      simp only [ne_eq, not_true_eq_false, or_false, not_le]
      exact hlen
    obtain ⟨rest, hr, hd, hwb, hw⟩ := certproc_ship_trace env netsock filesock x chain
      [Event.readop netsock comm.COMM_CSR_OP, Event.readbuf netsock comm.COMM_CSR,
        Event.d2i_X509 csr csr.length, Event.writestr netsock comm.COMM_ISSUER url,
        Event.readbuf netsock comm.COMM_CHAIN]
    have htr : (certproc env netsock filesock uid gid).trace =
        [Event.readop netsock comm.COMM_CSR_OP, Event.readbuf netsock comm.COMM_CSR,
          Event.d2i_X509 csr csr.length, Event.writestr netsock comm.COMM_ISSUER url,
          Event.readbuf netsock comm.COMM_CHAIN,
          Event.writeop filesock comm.COMM_CHAIN_OP 1] ++ rest := by
      simp only [certproc, h1, h2, h3, h4, hop', hcsr, hx, hurl, hstr, hchain, certproc_chain,
        hcond, Bool.not_true, Bool.false_eq_true, if_false, List.cons_append, List.nil_append]
      rw [hr]
      rfl
    refine ⟨rest, htr, hd, ?_, hw⟩
    intro b k hmem
    rw [htr] at hmem
    simp only [List.cons_append, List.nil_append, List.mem_cons, reduceCtorEq, false_or] at hmem
    exact hwb b k hmem
  · intro hlen
    have hcond : chain.length ≤ strlen MARKER ∨ strncmp chain MARKER (strlen MARKER) ≠ 0 := by
      rw [hM]
      exact Or.inl hlen
    simp only [certproc, h1, h2, h3, h4, hop', hcsr, hx, hurl, hstr, hchain, certproc_chain,
      hcond, Bool.not_true, Bool.false_eq_true, if_false, if_true, List.cons_append,
      List.nil_append]
    cases hd : env.d2i_X509 chain chain.length with
    | none => simp [certproc_out]
    | some chainx =>
      simp only []
      cases hb : x509buf env chainx with
      | none => simp [certproc_out]
      | some pem =>
        simp only []
        obtain ⟨rest, hr, -⟩ := certproc_ship_trace env netsock filesock x pem
          [Event.readop netsock comm.COMM_CSR_OP, Event.readbuf netsock comm.COMM_CSR,
            Event.d2i_X509 csr csr.length, Event.writestr netsock comm.COMM_ISSUER url,
            Event.readbuf netsock comm.COMM_CHAIN, Event.d2i_X509 chain chain.length]
        rw [hr]
        exact List.prefix_append _ _

/-- Witness of C6 (amended): the marker followed by a newline is forwarded to
the storage socket 4 as it was received. -/
theorem C6_pem_chain_forwarded_witness :
    ∃ rest : List Event,
      (certproc (cert_env_example (some info_access_example) (MARKER ++ [10])) 3 4 0 0).trace =
        [Event.readop 3 comm.COMM_CSR_OP, Event.readbuf 3 comm.COMM_CSR,
          Event.d2i_X509 [48, 0] 2,
          Event.writestr 3 comm.COMM_ISSUER "http://cert.example.org/",
          Event.readbuf 3 comm.COMM_CHAIN, Event.writeop 4 comm.COMM_CHAIN_OP 1,
          Event.writebuf 4 comm.COMM_CHAIN (MARKER ++ [10]) 28] ++ rest := by
  obtain ⟨rest, hr, -, -, hw⟩ := (C6_pem_chain_forwarded
    (cert_env_example (some info_access_example) (MARKER ++ [10])) 3 4 0 0 [48, 0] ()
    "http://cert.example.org/" (MARKER ++ [10]) ⟨rfl, rfl, rfl, rfl⟩ (by decide) rfl rfl
    (by decide) rfl rfl).1 (List.prefix_append _ _) (by decide)
  obtain ⟨rest', rfl⟩ := hw rfl
  exact ⟨rest', hr⟩

/-- C8: for every list of decoded Authority Information Access values, the
string the worker sends to the orchestrator is the value of the first entry,
in list order, named exactly `"CA Issuers - URI"`, whatever entries stand
before or after it; and when the extension is absent or no entry bears that
name the worker returns 0 having only read the opcode and the certificate:
it writes to neither socket and reads no chain buffer. -/
theorem C8_issuer_uri {X509 EXT METHOD ENTRIES : Type}
    (env : CertEnv X509 EXT METHOD ENTRIES) (netsock filesock : Int) (uid gid : Nat)
    (csr : List Nat) (x : X509)
    (hjail : env.jailed uid gid)
    (hop : env.readop netsock comm.COMM_CSR_OP ≠ 0)
    (hcsr : env.readbuf netsock comm.COMM_CSR = some csr)
    (hx : env.d2i_X509 csr csr.length = some x) :
    (∀ (pre post : List CONF_VALUE) (u : String),
      info_access_values env x = some (pre ++ ⟨"CA Issuers - URI", u⟩ :: post) →
      (∀ c ∈ pre, c.name ≠ "CA Issuers - URI") → env.strdup u = true →
      [Event.readop netsock comm.COMM_CSR_OP, Event.readbuf netsock comm.COMM_CSR,
        Event.d2i_X509 csr csr.length, Event.writestr netsock comm.COMM_ISSUER u]
        <+: (certproc env netsock filesock uid gid).trace) ∧
    ((info_access_values env x = none ∨
        ∃ val, info_access_values env x = some val ∧
          ∀ c ∈ val, c.name ≠ "CA Issuers - URI") →
      certproc env netsock filesock uid gid =
        ⟨0, [Event.readop netsock comm.COMM_CSR_OP, Event.readbuf netsock comm.COMM_CSR,
          Event.d2i_X509 csr csr.length, Event.close netsock, Event.close filesock]⟩) ∧
    ((env.X509_get_ext_by_NID x (-1) < 0 ∨
        env.X509_get_ext x (env.X509_get_ext_by_NID x (-1)) = none ∨
        env.X509_get_ext_d2i x = none) →
      info_access_values env x = none) := by
  obtain ⟨h1, h2, h3, h4⟩ := hjail
  have hop' : ¬ (0 : Int) = env.readop netsock comm.COMM_CSR_OP := fun h => hop h.symm
  refine ⟨?_, ?_, ?_⟩
  · intro pre post u hv hpre hdup
    have hiss : certproc_issuer env x = issuer.url u := by
      simp only [certproc_issuer, hv, find_issuer_first env.strdup pre post u hpre, hdup,
        if_true]
    simp only [certproc, h1, h2, h3, h4, hop', hcsr, hx, hiss, Bool.not_true,
      Bool.false_eq_true, if_false, List.cons_append, List.nil_append]
    by_cases hw : env.writestr netsock comm.COMM_ISSUER u = true
    · simp only [hw, Bool.not_true, Bool.false_eq_true, if_false]
      cases hc : env.readbuf netsock comm.COMM_CHAIN with
      | none => simp [certproc_out]
      | some chain =>
        simp only []
        refine List.IsPrefix.trans ?_ (certproc_chain_extends env netsock filesock x chain _)
        simp
    · simp [hw, certproc_out]
  · intro habs
    have hiss : certproc_issuer env x = issuer.null := by
      rcases habs with hn | ⟨val, hv, hall⟩
      · simp only [certproc_issuer, hn]
      · simp only [certproc_issuer, hv, find_issuer_null env.strdup val hall]
    simp only [certproc, h1, h2, h3, h4, hop', hcsr, hx, hiss, Bool.not_true,
      Bool.false_eq_true, if_false, List.cons_append, List.nil_append, certproc_out]
  · intro habs
    rcases habs with hi | he | hd
    · have hi' : ¬ env.X509_get_ext_by_NID x (-1) ≥ 0 := by omega
      simp only [info_access_values, hi', if_false]
    · simp only [info_access_values, he, ite_self]
    · simp only [info_access_values, hd]
      split <;> simp_all

/-- Witness of C8: of an OCSP entry and two issuer entries the worker sends the
value of the first issuer entry; with the OCSP entry alone it fails after the
certificate parse. -/
theorem C8_issuer_uri_witness :
    [Event.readop 3 comm.COMM_CSR_OP, Event.readbuf 3 comm.COMM_CSR,
      Event.d2i_X509 [48, 0] 2, Event.writestr 3 comm.COMM_ISSUER "http://cert.example.org/"]
      <+: (certproc (cert_env_example (some info_access_example) (MARKER ++ [10])) 3 4 0 0).trace ∧
    certproc (cert_env_example (some [⟨"OCSP - URI", "http://ocsp.example.org/"⟩])
        (MARKER ++ [10])) 3 4 0 0 =
      ⟨0, [Event.readop 3 comm.COMM_CSR_OP, Event.readbuf 3 comm.COMM_CSR,
        Event.d2i_X509 [48, 0] 2, Event.close 3, Event.close 4]⟩ :=
  ⟨(C8_issuer_uri (cert_env_example (some info_access_example) (MARKER ++ [10])) 3 4 0 0
      [48, 0] () ⟨rfl, rfl, rfl, rfl⟩ (by decide) rfl rfl).1
      [⟨"OCSP - URI", "http://ocsp.example.org/"⟩]
      [⟨"CA Issuers - URI", "http://other.example.org/"⟩] "http://cert.example.org/"
      rfl (by decide) rfl,
   (C8_issuer_uri (cert_env_example (some [⟨"OCSP - URI", "http://ocsp.example.org/"⟩])
      (MARKER ++ [10])) 3 4 0 0 [48, 0] () ⟨rfl, rfl, rfl, rfl⟩ (by decide) rfl rfl).2.1
      (Or.inr ⟨_, rfl, by decide⟩)⟩

end Letskencrypt
